import Mathlib

/-!
Verification development for the `eda_pipeline` repository.

The repository has two source files:

* `src/utils.py` — three statistical helpers: `classify_columns`,
  `cohens_d`, `detect_outliers`.
* `src/eda_pipeline.py` — the `EDAPipeline` class whose `run` method
  sequences the EDA steps, writes artifact files and emits log lines.

This file shallowly embeds those programs:

* Columns and dataframes are lists of named, typed columns; cell values
  are exact rationals, strings, or an explicit missing marker (NaN).
* `cohens_d` is embedded twice: once over exact reals (`cohens_d`), for
  the algebraic claims, and once over a small IEEE-like value domain
  `FVal` (`cohens_dF`) that tracks the nan/infinity propagation of the
  numpy float operations, for the degeneracy claims.
* `detect_outliers` is embedded over rationals with `Option` cells for
  missing values, including the pandas linear-interpolation quantile.
* The pipeline is a step-by-step state transformer over `PState`
  (dataframe, column classification, produced artifact file names, log
  events); steps that can raise a pandas `KeyError` return `Except`.
  The numeric contents of plot images and csv files are outside the
  embedded state: the claims under study concern which files exist,
  which log lines are emitted and how the dataframe evolves.
-/

/-! ## Data model: dtypes, cell values, columns, dataframes -/

/-- Declared storage type of a column, as pandas dtype classes relevant to
`select_dtypes(include=np.number)` and `select_dtypes(include="object")`. -/
inductive DType where
  | numeric
  | object
  | boolean
  | datetime
deriving DecidableEq, Repr

/-- One cell of a dataframe: an exact numeric value, a string, or a missing
value (NaN).  Equality of two `missing` cells is intentional: pandas
`unique()` and `duplicated()` treat all NaN cells as one value. -/
inductive Val where
  | num (q : ℚ)
  | str (s : String)
  | missing
deriving DecidableEq, Repr

/-- A named column with its declared dtype and cell values. -/
structure Col where
  name : String
  dtype : DType
  values : List Val
deriving DecidableEq, Repr

/-- A dataframe: ordered list of columns. -/
abbrev DataFrame := List Col

/-! ## src/utils.py: classify_columns -/

/-- Embedding of `classify_columns` (src/utils.py lines 3-6):
`select_dtypes(include=np.number)` keeps the numeric-dtype columns in
order, `select_dtypes(include="object")` keeps the object-dtype columns
in order; the function returns both name lists. -/
def classify_columns (df : DataFrame) : List String × List String :=
  ((df.filter (fun c => decide (c.dtype = DType.numeric))).map Col.name,
   (df.filter (fun c => decide (c.dtype = DType.object))).map Col.name)

/-! ## src/utils.py: cohens_d over exact reals -/

/-- Embedding of `np.mean(group)`: sum divided by length (an empty list
gives `0/0`, which this exact-real model sends to `0`; the float model
below records it as nan). -/
noncomputable def npMean (g : List ℝ) : ℝ := g.sum / g.length

/-- Embedding of `np.std(group, ddof=1)`: square root of the sum of squared
deviations from the mean divided by `n - 1`.  numpy clamps the divisor
`n - ddof` at zero, which the natural subtraction reproduces. -/
noncomputable def npStd (g : List ℝ) : ℝ :=
  Real.sqrt ((g.map (fun x => (x - npMean g) ^ 2)).sum / ((g.length - 1 : ℕ) : ℝ))

/-- Embedding of the pooled standard deviation of `cohens_d`
(src/utils.py lines 21-23): `sqrt(((n1-1)*std1**2 + (n2-1)*std2**2)
/ (n1+n2-2))`, with the lengths as signed integers. -/
noncomputable def pooled_std (group1 group2 : List ℝ) : ℝ :=
  Real.sqrt ((((group1.length : ℝ) - 1) * npStd group1 ^ 2 +
              ((group2.length : ℝ) - 1) * npStd group2 ^ 2) /
             ((group1.length : ℝ) + (group2.length : ℝ) - 2))

/-- Embedding of `cohens_d` (src/utils.py lines 10-25): difference of the
two sample means divided by the pooled standard deviation. -/
noncomputable def cohens_d (group1 group2 : List ℝ) : ℝ :=
  (npMean group1 - npMean group2) / pooled_std group1 group2

/-- Spec-side sample standard deviation, written from the words of the
spec (section 4.3): Bessel-corrected, divisor `n - 1`. -/
noncomputable def sample_std_spec (g : List ℝ) : ℝ :=
  Real.sqrt ((g.map (fun x => (x - g.sum / g.length) ^ 2)).sum / ((g.length : ℝ) - 1))

/-- Spec-side pooled standard deviation, written from the words of the
spec (section 4.3): `sqrt(((n1-1)*s1^2 + (n2-1)*s2^2) / (n1+n2-2))`. -/
noncomputable def pooled_std_spec (group1 group2 : List ℝ) : ℝ :=
  Real.sqrt ((((group1.length : ℝ) - 1) * sample_std_spec group1 ^ 2 +
              ((group2.length : ℝ) - 1) * sample_std_spec group2 ^ 2) /
             ((group1.length : ℝ) + (group2.length : ℝ) - 2))

/-- Spec-side Cohen d, written from the words of the spec (section 4.3):
`(mean1 - mean2) / pooled_std`. -/
noncomputable def cohens_d_spec (group1 group2 : List ℝ) : ℝ :=
  (group1.sum / group1.length - group2.sum / group2.length) /
    pooled_std_spec group1 group2

/-! ## Float-degeneracy model of cohens_d

`FVal` is the IEEE-754 value domain restricted to what the numpy code can
produce: a finite value (held exactly as a real), nan, or a signed
infinity.  The operations below implement the IEEE rules for the
arithmetic used in `cohens_d`. -/

/-- A double value: finite (exact real), nan, or infinity with a sign
(`inf true` is positive infinity). -/
inductive FVal where
  | nan
  | inf (pos : Bool)
  | fin (x : ℝ)

/-- A value that is nan or infinite — the non-finite sentinel values of
the spec (sections 4.3 and 7). -/
def FVal.Nonfinite : FVal → Prop
  | .fin _ => False
  | _ => True

/-- IEEE addition on `FVal`. -/
noncomputable def fadd : FVal → FVal → FVal
  | .nan, _ => .nan
  | _, .nan => .nan
  | .fin x, .fin y => .fin (x + y)
  | .inf s, .fin _ => .inf s
  | .fin _, .inf s => .inf s
  | .inf s, .inf t => if s = t then .inf s else .nan

/-- IEEE subtraction on `FVal`. -/
noncomputable def fsub : FVal → FVal → FVal
  | .nan, _ => .nan
  | _, .nan => .nan
  | .fin x, .fin y => .fin (x - y)
  | .inf s, .fin _ => .inf s
  | .fin _, .inf s => .inf !s
  | .inf s, .inf t => if s = t then .nan else .inf s

/-- IEEE multiplication on `FVal`; `0 * inf = nan`. -/
noncomputable def fmul : FVal → FVal → FVal
  | .nan, _ => .nan
  | _, .nan => .nan
  | .fin x, .fin y => .fin (x * y)
  | .fin x, .inf s => if x = 0 then .nan else if 0 < x then .inf s else .inf !s
  | .inf s, .fin x => if x = 0 then .nan else if 0 < x then .inf s else .inf !s
  | .inf s, .inf t => .inf (s == t)

/-- IEEE division on `FVal`; `0/0 = nan`, `x/0 = ±inf`, `x/inf = 0`,
`inf/inf = nan`. -/
noncomputable def fdiv : FVal → FVal → FVal
  | .nan, _ => .nan
  | _, .nan => .nan
  | .fin x, .fin y =>
      if y = 0 then
        if x = 0 then .nan else if 0 < x then .inf true else .inf false
      else .fin (x / y)
  | .fin _, .inf _ => .fin 0
  | .inf s, .fin y => if 0 ≤ y then .inf s else .inf !s
  | .inf _, .inf _ => .nan

/-- IEEE square root on `FVal`; negative arguments give nan. -/
noncomputable def fsqrt : FVal → FVal
  | .nan => .nan
  | .inf true => .inf true
  | .inf false => .nan
  | .fin x => if x < 0 then .nan else .fin (Real.sqrt x)

/-- Squaring, as the python `** 2` used on the stds. -/
noncomputable def fsq (v : FVal) : FVal := fmul v v

/-- Float-model `np.mean(group)`: the float sum divided by the count; an
empty group yields `0/0 = nan`, as numpy warns and returns nan. -/
noncomputable def npMeanF (g : List ℝ) : FVal :=
  fdiv (.fin g.sum) (.fin (g.length : ℝ))

/-- Float-model `np.var(group, ddof=1)`: sum of squared deviations divided
by `max(n-1, 0)` (numpy clamps the corrected count at 0, so groups of
size 0 or 1 give `0/0 = nan`). -/
noncomputable def npVarF (g : List ℝ) : FVal :=
  fdiv (.fin ((g.map (fun x => (x - g.sum / g.length) ^ 2)).sum))
       (.fin ((g.length - 1 : ℕ) : ℝ))

/-- Float-model `np.std(group, ddof=1)`. -/
noncomputable def npStdF (g : List ℝ) : FVal := fsqrt (npVarF g)

/-- Float-model pooled standard deviation of `cohens_d`
(src/utils.py lines 21-23). -/
noncomputable def pooled_stdF (group1 group2 : List ℝ) : FVal :=
  fsqrt (fdiv
    (fadd (fmul (.fin ((group1.length : ℝ) - 1)) (fsq (npStdF group1)))
          (fmul (.fin ((group2.length : ℝ) - 1)) (fsq (npStdF group2))))
    (.fin ((group1.length : ℝ) + (group2.length : ℝ) - 2)))

/-- Float-model `cohens_d` (src/utils.py lines 10-25), tracking the
nan/infinity behavior of the numpy operations. -/
noncomputable def cohens_dF (group1 group2 : List ℝ) : FVal :=
  fdiv (fsub (npMeanF group1) (npMeanF group2)) (pooled_stdF group1 group2)

/-! ## src/utils.py: detect_outliers over rationals -/

/-- Non-missing values of a series, in order (`Series.dropna`). -/
def dropna (s : List (Option ℚ)) : List ℚ := s.filterMap id

/-- Insert into a sorted list, keeping it sorted ascending. -/
def insort (x : ℚ) : List ℚ → List ℚ
  | [] => [x]
  | y :: ys => if x ≤ y then x :: y :: ys else y :: insort x ys

/-- Ascending sort by insertion. -/
def sortList (l : List ℚ) : List ℚ := l.foldr insort []

/-- Linear interpolation at fractional position `pos` of a sorted sample,
as numpy percentile with linear interpolation: with `i = floor pos`, the
result is `x_i + (pos - i) * (x_{i+1} - x_i)` (at the top boundary the
fractional part is zero, so the out-of-range neighbour never weighs in). -/
def qinterp (xs : List ℚ) (pos : ℚ) : ℚ :=
  xs.getD (⌊pos⌋).toNat 0 +
    (pos - ((⌊pos⌋).toNat : ℚ)) *
      (xs.getD ((⌊pos⌋).toNat + 1) (xs.getD (⌊pos⌋).toNat 0) -
       xs.getD (⌊pos⌋).toNat 0)

/-- Embedding of `Series.quantile(q)`: drop missing values, sort, then
linearly interpolate at position `q * (m - 1)`; an empty (or all-missing)
series yields NaN, modelled as `none`. -/
def quantile (s : List (Option ℚ)) (q : ℚ) : Option ℚ :=
  if (sortList (dropna s)).length = 0 then none
  else some (qinterp (sortList (dropna s))
                     (q * (((sortList (dropna s)).length : ℚ) - 1)))

/-- Embedding of `detect_outliers` (src/utils.py lines 29-37): quartiles by
interpolation, `iqr = q3 - q1`, fences at `1.5 * iqr`, and the count of
elementwise comparisons `(series < lower) | (series > upper)`; a missing
cell compares false on both sides, and a NaN quartile (empty series)
makes every comparison false, so the count is 0. -/
def detect_outliers (series : List (Option ℚ)) : ℕ :=
  match quantile series (1/4), quantile series (3/4) with
  | some q1, some q3 =>
      let iqr := q3 - q1
      let lower := q1 - 3/2 * iqr
      let upper := q3 + 3/2 * iqr
      (series.filter (fun v =>
        match v with
        | some x => decide (x < lower) || decide (upper < x)
        | none => false)).length
  | _, _ => 0

/-- Spec-side count of the values strictly outside the fence
`[lower, upper]`, over the non-missing values (spec section 4.2). -/
def outside_fence_count (series : List (Option ℚ)) (lower upper : ℚ) : ℕ :=
  ((dropna series).filter (fun x => decide (x < lower) || decide (upper < x))).length

/-! ## src/eda_pipeline.py: the pipeline

The pipeline state carries the dataframe, the classification lists set by
`classify_columns`, the names of the artifact files written so far (in
write order), and the log events with their levels.  Steps that can raise
a pandas `KeyError` (a column lookup on a name that is not there) return
`Except`; every other step is a total state transformer, as in the code.
The numeric contents of images and csv files are not part of the state. -/

/-- Log level of the logging collaborator. -/
inductive LogLevel where
  | info
  | warning
  | error
deriving DecidableEq, Repr

/-- The log events the pipeline emits, one constructor per logging call
site in src/eda_pipeline.py. -/
inductive LogMsg where
  | loadingDataset
  | datasetShape
  | idColumnsRemoved
  | duplicateRows (n : ℕ)
  | cohensDRequiresBinaryTarget
  | sweetvizFailed (e : String)
  | pipelineCompleted
deriving DecidableEq, Repr

/-- The recognized configuration options (spec section 3); `data_path` and
`report_path` only name the files and are not part of the embedded state. -/
structure Config where
  id_columns : List String
  target_column : String
  outlier_detection : Bool
  plots_distribution : Bool
  plots_target_analysis : Bool
  plots_correlation : Bool
deriving DecidableEq, Repr

/-- The pipeline instance state: `self.df`, `self.num_cols`/`self.cat_cols`,
the artifact files written so far and the log lines emitted so far. -/
structure PState where
  df : DataFrame
  num_cols : List String
  cat_cols : List String
  artifacts : List String
  logs : List (LogLevel × LogMsg)
deriving DecidableEq, Repr

/-- An uncaught pandas exception: `KeyError` on a column lookup. -/
inductive PErr where
  | keyError (col : String)
deriving DecidableEq, Repr

/-- Column lookup `df[name]`. -/
def getCol (df : DataFrame) (nm : String) : Option Col :=
  df.find? (fun c => c.name == nm)

/-- Sequencing of a fallible step with the rest of the run: an uncaught
exception propagates and aborts. -/
def estep (x : Except PErr PState) (f : PState → Except PErr PState) :
    Except PErr PState :=
  match x with
  | .error e => .error e
  | .ok s => f s

/-- Append one log event. -/
def addLog (lvl : LogLevel) (m : LogMsg) (s : PState) : PState :=
  { s with logs := s.logs ++ [(lvl, m)] }

/-- Record artifact files as written, in order. -/
def addArtifacts (fs : List String) (s : PState) : PState :=
  { s with artifacts := s.artifacts ++ fs }

/-- First-occurrence deduplication, as pandas `Series.unique()` (all NaN
cells count as the single value `Val.missing`) and as the first-occurrence
marking of `DataFrame.duplicated()`. -/
def pdUniq {α : Type} [DecidableEq α] (l : List α) : List α :=
  l.foldl (fun acc v => if v ∈ acc then acc else acc ++ [v]) []

/-- Number of rows of a dataframe. -/
def nRows (df : DataFrame) : ℕ :=
  (df.map (fun c => c.values.length)).foldr Nat.max 0

/-- Row `i` of a dataframe, across its columns. -/
def dfRow (df : DataFrame) (i : ℕ) : List Val :=
  df.map (fun c => c.values.getD i Val.missing)

/-- The rows of a dataframe, in order. -/
def dfRows (df : DataFrame) : List (List Val) :=
  (List.range (nRows df)).map (dfRow df)

/-- Count of duplicate rows, `df.duplicated().sum()`: rows that are a
repeat of an earlier row. -/
def dupCount (df : DataFrame) : ℕ :=
  (dfRows df).length - (pdUniq (dfRows df)).length

/-- Step `load_data` (src/eda_pipeline.py lines 49-53): log, install the
loaded dataframe, log its shape.  The fatal configuration/IO error case is
outside the embedded run, which starts from a successfully parsed CSV. -/
def load_data (loaded : DataFrame) (s : PState) : PState :=
  addLog .info .datasetShape (addLog .info .loadingDataset { s with df := loaded })

/-- The dataframe after dropping the configured identifier columns:
`df.drop(columns=ids, errors="ignore")` removes every column whose name is
listed and is tolerant of names that are absent. -/
def dropIdsDf (cfg : Config) (df : DataFrame) : DataFrame :=
  df.filter (fun c => !(cfg.id_columns.contains c.name))

/-- Step `drop_id_columns` (src/eda_pipeline.py lines 56-60). -/
def drop_id_columns (cfg : Config) (s : PState) : PState :=
  addLog .info .idColumnsRemoved { s with df := dropIdsDf cfg s.df }

/-- Step `missing_value_analysis` (src/eda_pipeline.py lines 63-67): the
per-column null ratios above zero are written to `missing_values.csv`
(always written, possibly with no rows); the ratio table itself is file
content and outside the embedded state. -/
def missing_value_analysis (s : PState) : PState :=
  addArtifacts ["missing_values.csv"] s

/-- Step `duplicate_analysis` (src/eda_pipeline.py lines 70-73): counts
duplicated rows and logs the count; nothing is persisted. -/
def duplicate_analysis (s : PState) : PState :=
  addLog .info (.duplicateRows (dupCount s.df)) s

/-- Step `classify_columns` of the pipeline (src/eda_pipeline.py lines
76-78): stores the two name lists from the helper of src/utils.py. -/
def classify_columns_step (s : PState) : PState :=
  { s with num_cols := (classify_columns s.df).1,
           cat_cols := (classify_columns s.df).2 }

/-- Step `distribution_plots` (src/eda_pipeline.py lines 83-105): early
return unless the distribution flag is set; otherwise one histogram image
per numeric column. -/
def distribution_plots (cfg : Config) (s : PState) : PState :=
  if cfg.plots_distribution then
    addArtifacts (s.num_cols.map (fun c => c ++ "_distribution.png")) s
  else s

/-- Step `target_analysis` (src/eda_pipeline.py lines 110-172): early
return unless the target-analysis flag is set; `self.df[target].unique()`
raises `KeyError` if the target column is absent; if the unique-value
count is not 2 a warning is logged and the step returns with no output;
otherwise one box plot per non-target numeric column followed by the
`ttest_effectsize_results.csv` table (the t-test p-values and
`cohens_d` effect sizes are file content). -/
def target_analysis (cfg : Config) (s : PState) : Except PErr PState :=
  if cfg.plots_target_analysis then
    match getCol s.df cfg.target_column with
    | none => .error (.keyError cfg.target_column)
    | some tcol =>
      if (pdUniq tcol.values).length ≠ 2 then
        .ok (addLog .warning .cohensDRequiresBinaryTarget s)
      else
        .ok (addArtifacts
          (((s.num_cols.filter (fun c => !(c == cfg.target_column))).map
              (fun c => c ++ "_vs_target.png")) ++
           ["ttest_effectsize_results.csv"]) s)
  else .ok s

/-- Step `correlation_analysis` (src/eda_pipeline.py lines 177-197): early
return unless the correlation flag is set; otherwise the heatmap image. -/
def correlation_analysis (cfg : Config) (s : PState) : PState :=
  if cfg.plots_correlation then addArtifacts ["correlation.png"] s else s

/-- Step `feature_target_correlation` (src/eda_pipeline.py lines 202-220):
no flag guards this step.  `self.df.corr(numeric_only=True)[target]`
raises `KeyError` unless the target is present as a numeric column;
otherwise the sorted bar chart image is written. -/
def feature_target_correlation (cfg : Config) (s : PState) : Except PErr PState :=
  match getCol s.df cfg.target_column with
  | none => .error (.keyError cfg.target_column)
  | some tcol =>
    if tcol.dtype = DType.numeric then
      .ok (addArtifacts ["target_correlation.png"] s)
    else .error (.keyError cfg.target_column)

/-- Step `categorical_statistical_tests` (src/eda_pipeline.py lines
225-254): for each categorical column, `pd.crosstab(df[col], df[target])`
(raising `KeyError` if the target is absent — only reached when the loop
body runs at least once) and a count plot image; then the
`chi2_results.csv` table is written unconditionally. -/
def categorical_statistical_tests (cfg : Config) (s : PState) : Except PErr PState :=
  match s.cat_cols with
  | [] => .ok (addArtifacts ["chi2_results.csv"] s)
  | _ :: _ =>
    match getCol s.df cfg.target_column with
    | none => .error (.keyError cfg.target_column)
    | some _ =>
      .ok (addArtifacts
        ((s.cat_cols.map (fun c => c ++ "_categorical.png")) ++
         ["chi2_results.csv"]) s)

/-- Step `outlier_analysis` (src/eda_pipeline.py lines 257-267): early
return unless the outlier flag is set; otherwise the per-column
`detect_outliers` counts are written to `outlier_counts.csv` (the counts
are file content). -/
def outlier_analysis (cfg : Config) (s : PState) : PState :=
  if cfg.outlier_detection then addArtifacts ["outlier_counts.csv"] s else s

/-- Step `generate_sweetviz` (src/eda_pipeline.py lines 270-277): the
external report generator is a black box whose outcome is a parameter; a
success writes `sweetviz_report.html`, any exception is caught and logged
as an error — this step never propagates a failure. -/
def generate_sweetviz (svResult : Except String Unit) (s : PState) : PState :=
  match svResult with
  | .ok _ => addArtifacts ["sweetviz_report.html"] s
  | .error e => addLog .error (.sweetvizFailed e) s

/-- The initial pipeline state: no dataframe loaded, nothing written. -/
def initState : PState :=
  { df := [], num_cols := [], cat_cols := [], artifacts := [], logs := [] }

/-- The `run` method (src/eda_pipeline.py lines 280-295): the twelve steps
in order, followed by the completion log line.  `loaded` is the parsed
CSV, `svResult` the outcome of the external report generator. -/
def run (cfg : Config) (loaded : DataFrame) (svResult : Except String Unit) :
    Except PErr PState :=
  estep (target_analysis cfg
      (distribution_plots cfg (classify_columns_step (duplicate_analysis
        (missing_value_analysis (drop_id_columns cfg (load_data loaded initState)))))))
    (fun s7 =>
      estep (feature_target_correlation cfg (correlation_analysis cfg s7)) (fun s9 =>
        estep (categorical_statistical_tests cfg s9) (fun s10 =>
          .ok (addLog .info .pipelineCompleted
            (generate_sweetviz svResult (outlier_analysis cfg s10))))))

/-! ## Concrete instances used by the witnesses -/

/-- A small dataframe with one column of each dtype kind. -/
def dfW3 : DataFrame :=
  [⟨"age", .numeric, [.num 30, .num 41]⟩,
   ⟨"city", .object, [.str "ap", .str "bx"]⟩,
   ⟨"joined", .datetime, [.missing, .missing]⟩]

/-- A configuration with every flag on and no identifier columns. -/
def cfgW : Config :=
  { id_columns := [], target_column := "t",
    outlier_detection := true, plots_distribution := true,
    plots_target_analysis := true, plots_correlation := true }

/-- A dataframe whose numeric target column `t` takes three distinct
values. -/
def dfW4 : DataFrame :=
  [⟨"x", .numeric, [.num 1, .num 2, .num 3]⟩,
   ⟨"t", .numeric, [.num 0, .num 1, .num 2]⟩]

/-- A dataframe whose numeric target column `t` is binary over its
non-missing entries but contains a missing value. -/
def dfW10 : DataFrame :=
  [⟨"x", .numeric, [.num 1, .num 2, .num 3, .num 4]⟩,
   ⟨"t", .numeric, [.num 0, .missing, .num 1, .num 0]⟩]

/-- A mid-run pipeline state over `dfW4` (three-valued target). -/
def sW : PState :=
  { df := dfW4, num_cols := ["x", "t"], cat_cols := [],
    artifacts := ["missing_values.csv"], logs := [] }

/-- A mid-run pipeline state over `dfW10` (binary-with-missing target). -/
def sW10 : PState :=
  { df := dfW10, num_cols := ["x", "t"], cat_cols := [],
    artifacts := [], logs := [] }

/-! ## Helper lemmas: cohens_d over exact reals -/

/-- On a non-empty sample the numpy clamped divisor `max(n-1, 0)` is the
signed `n - 1` of the spec, so the two standard deviations agree. -/
theorem npStd_eq_sample_std_spec {g : List ℝ} (h : g ≠ []) :
    npStd g = sample_std_spec g := by
  unfold npStd sample_std_spec npMean
  congr 2
  rw [Nat.cast_sub (Nat.one_le_iff_ne_zero.mpr (by simpa using h))]
  simp

/-- The pooled standard deviation is symmetric in the two groups. -/
theorem pooled_std_comm (g1 g2 : List ℝ) : pooled_std g1 g2 = pooled_std g2 g1 := by
  unfold pooled_std
  congr 1
  ring

/-- Evaluation of `npStd` on the two-element sample `[0, 2]`. -/
theorem npStd_zero_two : npStd [(0 : ℝ), 2] = Real.sqrt 2 := by
  unfold npStd npMean
  norm_num

/-- Evaluation of `npStd` on the two-element sample `[1, 3]`. -/
theorem npStd_one_three : npStd [(1 : ℝ), 3] = Real.sqrt 2 := by
  unfold npStd npMean
  norm_num

/-- Evaluation of the pooled standard deviation on `[0,2]` and `[1,3]`. -/
theorem pooled_std_eval : pooled_std [(0 : ℝ), 2] [(1 : ℝ), 3] = Real.sqrt 2 := by
  unfold pooled_std
  rw [npStd_zero_two, npStd_one_three, Real.sq_sqrt (by norm_num : (0:ℝ) ≤ 2)]
  norm_num

/-! ## Claim theorems: C1 and C7 -/

/-- C1: for every pair of non-empty numeric samples, `cohens_d` equals
`(mean1 - mean2) / pooled_std` with the Bessel-corrected (divisor `n-1`)
sample standard deviations and
`pooled_std = sqrt(((n1-1)*s1^2 + (n2-1)*s2^2) / (n1+n2-2))`. -/
theorem cohens_d_matches_spec (group1 group2 : List ℝ)
    (h1 : group1 ≠ []) (h2 : group2 ≠ []) :
    cohens_d group1 group2 = cohens_d_spec group1 group2 := by
  unfold cohens_d cohens_d_spec pooled_std pooled_std_spec npMean
  rw [npStd_eq_sample_std_spec h1, npStd_eq_sample_std_spec h2]

/-- Witness for C1 at the concrete samples `[0,2]` and `[1,3]`. -/
theorem cohens_d_matches_spec_witness :
    cohens_d [(0 : ℝ), 2] [(1 : ℝ), 3] = cohens_d_spec [(0 : ℝ), 2] [(1 : ℝ), 3] :=
  cohens_d_matches_spec _ _ (List.cons_ne_nil _ _) (List.cons_ne_nil _ _)

/-- C7: Cohen's d is antisymmetric: wherever the result is defined (the
pooled standard deviation it divides by is nonzero),
`cohens_d A B = -(cohens_d B A)`. -/
theorem cohens_d_antisymm (A B : List ℝ) (hdef : pooled_std A B ≠ 0) :
    cohens_d A B = -(cohens_d B A) := by
  unfold cohens_d
  rw [pooled_std_comm B A, ← neg_div, neg_sub]

/-- Witness for C7 at the concrete samples `[0,2]` and `[1,3]`, whose
pooled standard deviation is `sqrt 2 ≠ 0`. -/
theorem cohens_d_antisymm_witness :
    cohens_d [(0 : ℝ), 2] [(1 : ℝ), 3] = -(cohens_d [(1 : ℝ), 3] [(0 : ℝ), 2]) := by
  refine cohens_d_antisymm _ _ ?_
  rw [pooled_std_eval]
  exact Real.sqrt_ne_zero'.mpr (by norm_num)

/-! ## Claim theorem: C3 -/

/-- With distinct column names, equal names identify equal columns. -/
theorem col_eq_of_name_eq {df : DataFrame} (h : (df.map Col.name).Nodup)
    {c cc : Col} (hc : c ∈ df) (hcc : cc ∈ df) (hn : c.name = cc.name) :
    c = cc :=
  List.inj_on_of_nodup_map h hc hcc hn

/-- C3: `classify_columns` partitions the numeric- and object-typed
columns: under distinct column names, every numeric-dtype column name is
in the numeric list and not the categorical one, every object-dtype
column name is in the categorical list and not the numeric one, columns
of any other dtype are in neither, both lists are duplicate-free, and no
name is in both. -/
theorem classify_columns_partition (df : DataFrame)
    (h : (df.map Col.name).Nodup) :
    ((classify_columns df).1.Nodup ∧ (classify_columns df).2.Nodup) ∧
    (∀ c ∈ df, c.dtype = DType.numeric →
        c.name ∈ (classify_columns df).1 ∧ c.name ∉ (classify_columns df).2) ∧
    (∀ c ∈ df, c.dtype = DType.object →
        c.name ∈ (classify_columns df).2 ∧ c.name ∉ (classify_columns df).1) ∧
    (∀ c ∈ df, c.dtype ≠ DType.numeric → c.dtype ≠ DType.object →
        c.name ∉ (classify_columns df).1 ∧ c.name ∉ (classify_columns df).2) ∧
    (∀ x, ¬ (x ∈ (classify_columns df).1 ∧ x ∈ (classify_columns df).2)) := by
  have hmemnum : ∀ x, x ∈ (classify_columns df).1 ↔
      ∃ c ∈ df, c.dtype = DType.numeric ∧ c.name = x := by
    intro x
    simp [classify_columns, List.mem_map, List.mem_filter, and_assoc]
  have hmemcat : ∀ x, x ∈ (classify_columns df).2 ↔
      ∃ c ∈ df, c.dtype = DType.object ∧ c.name = x := by
    intro x
    simp [classify_columns, List.mem_map, List.mem_filter, and_assoc]
  refine ⟨⟨?_, ?_⟩, ?_, ?_, ?_, ?_⟩
  · exact ((List.filter_sublist df).map Col.name).nodup h
  · exact ((List.filter_sublist df).map Col.name).nodup h
  · intro c hc hdt
    refine ⟨(hmemnum c.name).mpr ⟨c, hc, hdt, rfl⟩, ?_⟩
    intro hmem
    obtain ⟨cc, hccdf, hccdt, hccn⟩ := (hmemcat c.name).mp hmem
    have := col_eq_of_name_eq h hc hccdf hccn.symm
    rw [this, hccdt] at hdt
    exact absurd hdt (by decide)
  · intro c hc hdt
    refine ⟨(hmemcat c.name).mpr ⟨c, hc, hdt, rfl⟩, ?_⟩
    intro hmem
    obtain ⟨cc, hccdf, hccdt, hccn⟩ := (hmemnum c.name).mp hmem
    have := col_eq_of_name_eq h hc hccdf hccn.symm
    rw [this, hccdt] at hdt
    exact absurd hdt (by decide)
  · intro c hc hdt1 hdt2
    constructor
    · intro hmem
      obtain ⟨cc, hccdf, hccdt, hccn⟩ := (hmemnum c.name).mp hmem
      exact hdt1 (by rw [col_eq_of_name_eq h hc hccdf hccn.symm, hccdt])
    · intro hmem
      obtain ⟨cc, hccdf, hccdt, hccn⟩ := (hmemcat c.name).mp hmem
      exact hdt2 (by rw [col_eq_of_name_eq h hc hccdf hccn.symm, hccdt])
  · rintro x ⟨hx1, hx2⟩
    obtain ⟨c1, hc1, hdt1, hn1⟩ := (hmemnum x).mp hx1
    obtain ⟨c2, hc2, hdt2, hn2⟩ := (hmemcat x).mp hx2
    have := col_eq_of_name_eq h hc1 hc2 (hn1.trans hn2.symm)
    rw [this, hdt2] at hdt1
    exact absurd hdt1 (by decide)

/-- Witness for C3 at a concrete dataframe with a numeric, an object and a
datetime column. -/
theorem classify_columns_partition_witness :
    ((classify_columns dfW3).1.Nodup ∧ (classify_columns dfW3).2.Nodup) ∧
    (∀ c ∈ dfW3, c.dtype = DType.numeric →
        c.name ∈ (classify_columns dfW3).1 ∧ c.name ∉ (classify_columns dfW3).2) ∧
    (∀ c ∈ dfW3, c.dtype = DType.object →
        c.name ∈ (classify_columns dfW3).2 ∧ c.name ∉ (classify_columns dfW3).1) ∧
    (∀ c ∈ dfW3, c.dtype ≠ DType.numeric → c.dtype ≠ DType.object →
        c.name ∉ (classify_columns dfW3).1 ∧ c.name ∉ (classify_columns dfW3).2) ∧
    (∀ x, ¬ (x ∈ (classify_columns dfW3).1 ∧ x ∈ (classify_columns dfW3).2)) :=
  classify_columns_partition dfW3 (by decide)

/-! ## Helper lemmas: quantiles and detect_outliers -/

/-- Counting matches of an option-level predicate that rejects `none`
equals counting matches of the value-level predicate over the non-missing
values. -/
theorem filter_option_length (s : List (Option ℚ)) (p : ℚ → Bool) :
    (s.filter (fun v => match v with | some x => p x | none => false)).length =
    ((s.filterMap id).filter p).length := by
  induction s with
  | nil => rfl
  | cons v t ih =>
    cases v with
    | none => simpa using ih
    | some x =>
      cases hp : p x <;>
        simp [List.filter_cons, List.filterMap_cons, hp, ih]

/-- Dropping missing values from a constant non-missing series. -/
theorem dropna_replicate (n : ℕ) (c : ℚ) :
    dropna (List.replicate n (some c)) = List.replicate n c := by
  induction n with
  | zero => rfl
  | succ k ih =>
    simp only [List.replicate_succ, dropna, List.filterMap_cons, id] at ih ⊢
    rw [ih]

/-- Unfolding of the insertion sort on a cons cell. -/
theorem sortList_cons (x : ℚ) (l : List ℚ) :
    sortList (x :: l) = insort x (sortList l) := rfl

/-- Inserting the repeated value into a constant list prepends it. -/
theorem insort_replicate (k : ℕ) (c : ℚ) :
    insort c (List.replicate k c) = List.replicate (k + 1) c := by
  cases k with
  | zero => rfl
  | succ m =>
    simp [List.replicate_succ, insort]

/-- A constant list is already sorted. -/
theorem sortList_replicate (n : ℕ) (c : ℚ) :
    sortList (List.replicate n c) = List.replicate n c := by
  induction n with
  | zero => rfl
  | succ k ih =>
    rw [List.replicate_succ, sortList_cons, ih, insort_replicate]
    simp [List.replicate_succ]

/-- In-range `getD` on a constant list. -/
theorem getD_replicate {n i : ℕ} (c : ℚ) (hi : i < n) :
    (List.replicate n c).getD i 0 = c := by
  rw [List.getD_eq_getElem?_getD, List.getElem?_replicate, if_pos hi]
  rfl

/-- With the repeated value as default, `getD` on a constant list always
yields that value. -/
theorem getD_replicate_defc (n i : ℕ) (c : ℚ) :
    (List.replicate n c).getD i c = c := by
  rw [List.getD_eq_getElem?_getD, List.getElem?_replicate]
  split <;> rfl

/-- Interpolation inside a constant list yields the constant. -/
theorem qinterp_replicate {n : ℕ} (c : ℚ) {pos : ℚ}
    (h0 : 0 ≤ pos) (hle : pos ≤ (n : ℚ) - 1) :
    qinterp (List.replicate n c) pos = c := by
  have hfl : ⌊pos⌋ ≤ (n : ℤ) - 1 := by
    have h1 : ((n : ℚ) - 1) = (((n : ℤ) - 1 : ℤ) : ℚ) := by push_cast; ring
    have h2 := Int.floor_le_floor (le_of_le_of_eq hle h1)
    rwa [Int.floor_intCast] at h2
  have h4 : (0 : ℤ) ≤ ⌊pos⌋ := Int.floor_nonneg.mpr h0
  have hi : (⌊pos⌋).toNat < n := by omega
  unfold qinterp
  rw [getD_replicate c hi, getD_replicate_defc]
  ring

/-- Any quantile of a non-empty constant series is the constant. -/
theorem quantile_replicate {n : ℕ} (hn : n ≠ 0) (c : ℚ) {q : ℚ}
    (hq0 : 0 ≤ q) (hq1 : q ≤ 1) :
    quantile (List.replicate n (some c)) q = some c := by
  unfold quantile
  rw [dropna_replicate, sortList_replicate, List.length_replicate, if_neg hn]
  have hnn : (0 : ℚ) ≤ (n : ℚ) - 1 := by
    have : (1 : ℚ) ≤ (n : ℚ) := by exact_mod_cast Nat.one_le_iff_ne_zero.mpr hn
    linarith
  congr 1
  exact qinterp_replicate c (mul_nonneg hq0 hnn) (mul_le_of_le_one_left hnn hq1)

/-- Part of C2: `detect_outliers` counts exactly the non-missing values
strictly outside the Tukey fence built from the interpolated quartiles. -/
theorem detect_outliers_fence (s : List (Option ℚ)) (q1 q3 : ℚ)
    (hq1 : quantile s (1/4) = some q1) (hq3 : quantile s (3/4) = some q3) :
    detect_outliers s =
      outside_fence_count s (q1 - 3/2 * (q3 - q1)) (q3 + 3/2 * (q3 - q1)) := by
  unfold detect_outliers
  rw [hq1, hq3]
  exact filter_option_length s _

/-- Part of C2: a degenerate zero IQR makes the fence collapse to the
common quartile value, so exactly the non-missing values different from it
are counted. -/
theorem detect_outliers_iqr_zero (s : List (Option ℚ)) (q : ℚ)
    (hq1 : quantile s (1/4) = some q) (hq3 : quantile s (3/4) = some q) :
    detect_outliers s = ((dropna s).filter (fun x => decide (x ≠ q))).length := by
  unfold detect_outliers
  rw [hq1, hq3]
  show (List.filter (fun v =>
      match v with
      | some x => decide (x < q - 3/2 * (q - q)) || decide (q + 3/2 * (q - q) < x)
      | none => false) s).length =
    ((dropna s).filter (fun x => decide (x ≠ q))).length
  have hfix : ∀ v ∈ s,
      (fun v => match v with
        | some x => decide (x < q - 3/2 * (q - q)) || decide (q + 3/2 * (q - q) < x)
        | none => false) v =
      (fun v => match v with
        | some x => decide (x ≠ q)
        | none => false) v := by
    intro v _
    cases v with
    | none => rfl
    | some x =>
      show (decide (x < q - 3/2 * (q - q)) || decide (q + 3/2 * (q - q) < x)) =
        decide (x ≠ q)
      have h0 : q - 3/2 * (q - q) = q := by ring
      have h1 : q + 3/2 * (q - q) = q := by ring
      rw [h0, h1, ← Bool.decide_or]
      exact decide_eq_decide.mpr lt_or_lt_iff_ne
  rw [List.filter_congr hfix]
  exact filter_option_length s _

/-- Part of C2: a constant series has no outliers. -/
theorem detect_outliers_const (n : ℕ) (c : ℚ) (hn : n ≠ 0) :
    detect_outliers (List.replicate n (some c)) = 0 := by
  rw [detect_outliers_iqr_zero _ c
        (quantile_replicate hn c (by norm_num) (by norm_num))
        (quantile_replicate hn c (by norm_num) (by norm_num))]
  rw [dropna_replicate]
  simp

/-- Part of C2: on `[1,2,3,4,5,100]` the interpolated quartiles are `9/4`
and `19/4`, the fence is `[-3/2, 17/2]`, and exactly the value `100` is
flagged. -/
theorem detect_outliers_example :
    detect_outliers [some 1, some 2, some 3, some 4, some 5, some 100] = 1 := by
  have hd : dropna [some 1, some 2, some 3, some 4, some 5, some 100] =
      [(1:ℚ), 2, 3, 4, 5, 100] := rfl
  have hs : sortList [(1:ℚ), 2, 3, 4, 5, 100] = [(1:ℚ), 2, 3, 4, 5, 100] := by
    norm_num [sortList, insort]
  have ht1 : (1 : ℤ).toNat = 1 := rfl
  have ht3 : (3 : ℤ).toNat = 3 := rfl
  have hq25 : quantile [some 1, some 2, some 3, some 4, some 5, some 100] (1/4) =
      some (9/4) := by
    unfold quantile
    rw [hd, hs]
    norm_num [qinterp, List.getD_eq_getElem?_getD, ht1]
  have hq75 : quantile [some 1, some 2, some 3, some 4, some 5, some 100] (3/4) =
      some (19/4) := by
    unfold quantile
    rw [hd, hs]
    norm_num [qinterp, List.getD_eq_getElem?_getD, ht3]
  unfold detect_outliers
  rw [hq25, hq75]
  norm_num [List.filter_cons]

/-! ## Claim theorem: C2 -/

/-- C2: `detect_outliers` returns the count of values strictly outside
the fence `[Q1 - 1.5*IQR, Q3 + 1.5*IQR]` over the interpolated quartiles
of the non-missing values; an all-equal input yields count 0; a zero IQR
counts every non-missing value different from the common quartile value;
and `[1,2,3,4,5,100]` yields exactly 1. -/
theorem detect_outliers_matches_spec :
    (∀ (s : List (Option ℚ)) (q1 q3 : ℚ),
       quantile s (1/4) = some q1 → quantile s (3/4) = some q3 →
       detect_outliers s =
         outside_fence_count s (q1 - 3/2 * (q3 - q1)) (q3 + 3/2 * (q3 - q1))) ∧
    (∀ (n : ℕ) (c : ℚ), n ≠ 0 →
       detect_outliers (List.replicate n (some c)) = 0) ∧
    (∀ (s : List (Option ℚ)) (q : ℚ),
       quantile s (1/4) = some q → quantile s (3/4) = some q →
       detect_outliers s = ((dropna s).filter (fun x => decide (x ≠ q))).length) ∧
    detect_outliers [some 1, some 2, some 3, some 4, some 5, some 100] = 1 :=
  ⟨detect_outliers_fence, fun n c hn => detect_outliers_const n c hn,
   detect_outliers_iqr_zero, detect_outliers_example⟩

/-- Witness for C2 at the concrete constant series of three `7` cells. -/
theorem detect_outliers_matches_spec_witness :
    detect_outliers (List.replicate 3 (some (7 : ℚ))) = 0 :=
  detect_outliers_matches_spec.2.1 3 7 (by decide)

/-! ## Helper lemmas: the float model of cohens_d -/

/-- Nan is non-finite. -/
theorem nonfin_nan : FVal.Nonfinite .nan := trivial

/-- Subtracting anything from nan gives nan. -/
theorem fsub_nan_left (b : FVal) : fsub .nan b = .nan := by cases b <;> rfl

/-- Subtracting nan from anything gives nan. -/
theorem fsub_nan_right (a : FVal) : fsub a .nan = .nan := by cases a <;> rfl

/-- Dividing nan by anything gives nan. -/
theorem fdiv_nan_left (b : FVal) : fdiv .nan b = .nan := by cases b <;> rfl

/-- Dividing anything by nan gives nan. -/
theorem fdiv_nan_right (a : FVal) : fdiv a .nan = .nan := by cases a <;> rfl

/-- Multiplying anything by nan gives nan. -/
theorem fmul_nan_right (a : FVal) : fmul a .nan = .nan := by cases a <;> rfl

/-- Adding nan to anything gives nan. -/
theorem fadd_nan_left (b : FVal) : fadd .nan b = .nan := by cases b <;> rfl

/-- Division by exact (positive) float zero never produces a finite value:
`0/0` is nan, a nonzero finite numerator gives a signed infinity, an
infinite numerator stays infinite, a nan numerator stays nan. -/
theorem nonfin_fdiv_zero (a : FVal) : (fdiv a (.fin 0)).Nonfinite := by
  cases a with
  | nan => exact nonfin_nan
  | inf s =>
    show (if (0:ℝ) ≤ 0 then FVal.inf s else FVal.inf !s).Nonfinite
    rw [if_pos le_rfl]
    trivial
  | fin x =>
    show (if (0:ℝ) = 0 then
        if x = 0 then FVal.nan else if 0 < x then FVal.inf true else FVal.inf false
      else FVal.fin (x / 0)).Nonfinite
    rw [if_pos rfl]
    split
    · trivial
    · split <;> trivial

/-- A non-finite minuend keeps the difference non-finite. -/
theorem nonfin_fsub_left {a : FVal} (ha : a.Nonfinite) (b : FVal) :
    (fsub a b).Nonfinite := by
  cases a with
  | nan => rw [fsub_nan_left]; trivial
  | inf s =>
    cases b with
    | nan => rw [fsub_nan_right]; trivial
    | inf t =>
      show (if s = t then FVal.nan else FVal.inf s).Nonfinite
      split <;> trivial
    | fin y => trivial
  | fin x => exact absurd ha (by simp [FVal.Nonfinite])

/-- A non-finite subtrahend keeps the difference non-finite. -/
theorem nonfin_fsub_right {b : FVal} (hb : b.Nonfinite) (a : FVal) :
    (fsub a b).Nonfinite := by
  cases b with
  | nan => rw [fsub_nan_right]; trivial
  | inf s =>
    cases a with
    | nan => rw [fsub_nan_left]; trivial
    | inf t =>
      show (if t = s then FVal.nan else FVal.inf t).Nonfinite
      split <;> trivial
    | fin y => trivial
  | fin x => exact absurd hb (by simp [FVal.Nonfinite])

/-- A non-finite numerator keeps the quotient non-finite. -/
theorem nonfin_fdiv_left {a : FVal} (ha : a.Nonfinite) (b : FVal) :
    (fdiv a b).Nonfinite := by
  cases a with
  | nan => rw [fdiv_nan_left]; trivial
  | inf s =>
    cases b with
    | nan => rw [fdiv_nan_right]; trivial
    | inf t => trivial
    | fin y =>
      show (if (0:ℝ) ≤ y then FVal.inf s else FVal.inf !s).Nonfinite
      split <;> trivial
  | fin x => exact absurd ha (by simp [FVal.Nonfinite])

/-- The float mean of an empty group is `0/0 = nan`, as numpy returns. -/
theorem npMeanF_nil : npMeanF [] = .nan := by
  show fdiv (.fin (List.sum [])) (.fin ((List.length ([] : List ℝ)) : ℝ)) = .nan
  rw [List.sum_nil, List.length_nil, Nat.cast_zero]
  show (if (0:ℝ) = 0 then
      if (0:ℝ) = 0 then FVal.nan else if 0 < (0:ℝ) then FVal.inf true else FVal.inf false
    else FVal.fin (0 / 0)) = .nan
  rw [if_pos rfl, if_pos rfl]

/-- The float sample standard deviation of a one-element group is
`sqrt(0/0) = nan`, as numpy warns and returns for `ddof = 1`. -/
theorem npStdF_singleton (a : ℝ) : npStdF [a] = .nan := by
  unfold npStdF npVarF
  have hsum : (([a] : List ℝ).map
      (fun x => (x - ([a] : List ℝ).sum / (([a] : List ℝ).length : ℝ)) ^ 2)).sum = 0 := by
    simp
  rw [hsum]
  have hlen : (((([a] : List ℝ).length - 1 : ℕ)) : ℝ) = 0 := by simp
  rw [hlen]
  show fsqrt (if (0:ℝ) = 0 then
      if (0:ℝ) = 0 then FVal.nan else if 0 < (0:ℝ) then FVal.inf true else FVal.inf false
    else FVal.fin (0 / 0)) = .nan
  rw [if_pos rfl, if_pos rfl]
  rfl

/-- The float pooled standard deviation of two singleton groups is nan:
both stds are nan, and nan poisons every later operation (including the
`0 * nan` products and the division by `n1+n2-2 = 0`). -/
theorem pooled_stdF_singleton (a b : ℝ) : pooled_stdF [a] [b] = .nan := by
  unfold pooled_stdF
  rw [npStdF_singleton, npStdF_singleton]
  show fsqrt (fdiv (fadd (fmul _ (fsq .nan)) (fmul _ (fsq .nan))) _) = .nan
  have hsq : fsq .nan = .nan := rfl
  rw [hsq, fmul_nan_right, fmul_nan_right, fadd_nan_left, fdiv_nan_left]
  rfl

/-! ## Claim theorem: C6 -/

/-- C6: on degenerate inputs — total size at most 2, or a pooled standard
deviation of exact zero — the float-semantics `cohens_d` does not raise:
it evaluates to a non-finite sentinel (nan or a signed infinity) that
propagates to the caller. -/
theorem cohens_dF_nonfinite (group1 group2 : List ℝ)
    (h : group1.length + group2.length ≤ 2 ∨ pooled_stdF group1 group2 = .fin 0) :
    (cohens_dF group1 group2).Nonfinite := by
  rcases h with h | h
  · cases group1 with
    | nil =>
      unfold cohens_dF
      exact nonfin_fdiv_left (nonfin_fsub_left (npMeanF_nil ▸ nonfin_nan) _) _
    | cons a t1 =>
      cases group2 with
      | nil =>
        unfold cohens_dF
        exact nonfin_fdiv_left (nonfin_fsub_right (npMeanF_nil ▸ nonfin_nan) _) _
      | cons b t2 =>
        have hlen : t1.length = 0 ∧ t2.length = 0 := by
          simp only [List.length_cons] at h
          omega
        obtain ⟨h1, h2⟩ := hlen
        rw [List.length_eq_zero] at h1 h2
        subst h1
        subst h2
        unfold cohens_dF
        rw [pooled_stdF_singleton, fdiv_nan_right]
        exact nonfin_nan
  · unfold cohens_dF
    rw [h]
    exact nonfin_fdiv_zero _

/-- Witness for C6 at the two singleton groups `[1]` and `[2]`, whose
total size is 2. -/
theorem cohens_dF_nonfinite_witness :
    (cohens_dF [(1 : ℝ)] [(2 : ℝ)]).Nonfinite :=
  cohens_dF_nonfinite _ _ (Or.inl (by decide))

/-! ## Helper lemmas: pdUniq (pandas unique) -/

/-- Membership through the first-occurrence fold: the accumulator only
ever grows by elements of the traversed list. -/
theorem pdUniq_loop_mem {α : Type} [DecidableEq α] (l : List α) (acc : List α) (a : α) :
    a ∈ l.foldl (fun acc v => if v ∈ acc then acc else acc ++ [v]) acc ↔
      a ∈ acc ∨ a ∈ l := by
  induction l generalizing acc with
  | nil => simp
  | cons v t ih =>
    simp only [List.foldl_cons]
    by_cases hv : v ∈ acc
    · rw [if_pos hv, ih]
      constructor
      · rintro (h | h)
        · exact Or.inl h
        · exact Or.inr (List.mem_cons_of_mem _ h)
      · rintro (h | h)
        · exact Or.inl h
        · rcases List.mem_cons.mp h with rfl | h
          · exact Or.inl hv
          · exact Or.inr h
    · rw [if_neg hv, ih]
      simp only [List.mem_append, List.mem_singleton, List.mem_cons]
      tauto

/-- The first-occurrence fold preserves freedom from duplicates. -/
theorem pdUniq_loop_nodup {α : Type} [DecidableEq α] (l : List α) (acc : List α)
    (h : acc.Nodup) :
    (l.foldl (fun acc v => if v ∈ acc then acc else acc ++ [v]) acc).Nodup := by
  induction l generalizing acc with
  | nil => simpa
  | cons v t ih =>
    simp only [List.foldl_cons]
    by_cases hv : v ∈ acc
    · rw [if_pos hv]
      exact ih _ h
    · rw [if_neg hv]
      refine ih _ ?_
      simp [List.nodup_append, h, hv]

/-- `pdUniq` keeps exactly the values of the list. -/
theorem pdUniq_mem {α : Type} [DecidableEq α] (l : List α) (a : α) :
    a ∈ pdUniq l ↔ a ∈ l := by
  unfold pdUniq
  rw [pdUniq_loop_mem]
  simp

/-- `pdUniq` has no duplicates. -/
theorem pdUniq_nodup {α : Type} [DecidableEq α] (l : List α) : (pdUniq l).Nodup :=
  pdUniq_loop_nodup l [] (by simp)

/-- A series whose cells are two distinct numbers and the missing marker,
each present, has exactly three pandas-unique values: `unique()` counts
NaN as a value of its own. -/
theorem pdUniq_length_three {l : List Val} {a b : ℚ} (hab : a ≠ b)
    (ha : Val.num a ∈ l) (hb : Val.num b ∈ l) (hm : Val.missing ∈ l)
    (hsub : ∀ v ∈ l, v = Val.num a ∨ v = Val.num b ∨ v = Val.missing) :
    (pdUniq l).length = 3 := by
  have hnd : ([Val.num a, Val.num b, Val.missing] : List Val).Nodup := by
    simp [hab]
  have hperm : (pdUniq l).Perm [Val.num a, Val.num b, Val.missing] := by
    rw [List.perm_ext_iff_of_nodup (pdUniq_nodup l) hnd]
    intro v
    rw [pdUniq_mem]
    constructor
    · intro hv
      rcases hsub v hv with rfl | rfl | rfl <;> simp
    · intro hv
      rcases List.mem_cons.mp hv with rfl | hv
      · exact ha
      rcases List.mem_cons.mp hv with rfl | hv
      · exact hb
      rcases List.mem_cons.mp hv with rfl | hv
      · exact hm
      · exact absurd hv (List.not_mem_nil v)
  simpa using hperm.length_eq

/-! ## Helper lemmas: artifact file names -/

/-- A name built by appending a suffix ending in the letter g is not the
t-test results file name. -/
theorem png_ne_ttest (x s : String) (hs : s.data.getLast? = some 'g') :
    x ++ s ≠ "ttest_effectsize_results.csv" := by
  intro he
  have h1 : (x ++ s).data.getLast? = some 'g' := by
    rw [String.data_append, List.getLast?_append, hs]
    rfl
  rw [he] at h1
  exact absurd h1 (by decide)

/-- The t-test results file name never appears among per-column image
names built with a suffix ending in the letter g. -/
theorem ttest_not_mem_map_png (s : String) (hs : s.data.getLast? = some 'g')
    (l : List String) :
    "ttest_effectsize_results.csv" ∉ l.map (fun c => c ++ s) := by
  intro hmem
  rw [List.mem_map] at hmem
  obtain ⟨c, _, hc⟩ := hmem
  exact png_ne_ttest c s hs hc

/-- Membership in a conditionally empty list needs the unconditional list. -/
theorem not_mem_ite_nil {α : Type} {x : α} {b : Prop} [Decidable b] {l : List α}
    (h : x ∉ l) : x ∉ (if b then l else ([] : List α)) := by
  split
  · exact h
  · exact List.not_mem_nil x

/-! ## Helper lemmas: the pipeline steps in normal form -/

/-- `distribution_plots` only appends artifacts, and only when its flag
is set. -/
theorem distribution_plots_eq (cfg : Config) (s : PState) :
    distribution_plots cfg s =
      addArtifacts (if cfg.plots_distribution then
          s.num_cols.map (fun c => c ++ "_distribution.png") else []) s := by
  unfold distribution_plots
  cases h : cfg.plots_distribution <;> simp [h, addArtifacts]

/-- `correlation_analysis` only appends its image, and only when its flag
is set. -/
theorem correlation_analysis_eq (cfg : Config) (s : PState) :
    correlation_analysis cfg s =
      addArtifacts (if cfg.plots_correlation then ["correlation.png"] else []) s := by
  unfold correlation_analysis
  cases h : cfg.plots_correlation <;> simp [h, addArtifacts]

/-- `outlier_analysis` only appends its csv, and only when its flag is
set. -/
theorem outlier_analysis_eq (cfg : Config) (s : PState) :
    outlier_analysis cfg s =
      addArtifacts (if cfg.outlier_detection then ["outlier_counts.csv"] else []) s := by
  unfold outlier_analysis
  cases h : cfg.outlier_detection <;> simp [h, addArtifacts]

/-- When the target-analysis flag is set, the target column is present and
its pandas-unique count is not 2, the step only logs the warning: no
artifact is produced and the step does not fail. -/
theorem target_analysis_skip {cfg : Config} {s : PState} {tcol : Col}
    (hflag : cfg.plots_target_analysis = true)
    (hcol : getCol s.df cfg.target_column = some tcol)
    (hlen : (pdUniq tcol.values).length ≠ 2) :
    target_analysis cfg s = .ok (addLog .warning .cohensDRequiresBinaryTarget s) := by
  unfold target_analysis
  rw [hflag, hcol]
  simp only [if_true]
  rw [if_pos hlen]

/-- Whenever the target column is present, `target_analysis` succeeds and
only appends log lines and artifacts; the appended artifacts are box-plot
images or the t-test results csv, and in the skip case (flag set,
unique-value count not 2) the appends are exactly the warning line and no
artifact. -/
theorem target_analysis_ok {cfg : Config} {s : PState} {tcol : Col}
    (hcol : getCol s.df cfg.target_column = some tcol) :
    ∃ lg ar, target_analysis cfg s =
        .ok { s with logs := s.logs ++ lg, artifacts := s.artifacts ++ ar } ∧
      (∀ f ∈ ar, (∃ c, f = c ++ "_vs_target.png") ∨
         f = "ttest_effectsize_results.csv") ∧
      (cfg.plots_target_analysis = true → (pdUniq tcol.values).length ≠ 2 →
         lg = [(LogLevel.warning, LogMsg.cohensDRequiresBinaryTarget)] ∧ ar = []) := by
  cases hflag : cfg.plots_target_analysis with
  | false =>
    refine ⟨[], [], ?_, by simp, by simp [hflag]⟩
    unfold target_analysis
    rw [hflag]
    simp
  | true =>
    by_cases hlen : (pdUniq tcol.values).length ≠ 2
    · refine ⟨[(LogLevel.warning, LogMsg.cohensDRequiresBinaryTarget)], [],
        ?_, by simp, fun _ _ => ⟨rfl, rfl⟩⟩
      rw [target_analysis_skip hflag hcol hlen]
      simp [addLog]
    · refine ⟨[], (s.num_cols.filter (fun c => !(c == cfg.target_column))).map
          (fun c => c ++ "_vs_target.png") ++ ["ttest_effectsize_results.csv"],
        ?_, ?_, fun _ h => absurd h hlen⟩
      · unfold target_analysis
        rw [hflag, hcol]
        simp only [if_true]
        rw [if_neg hlen]
        simp [addArtifacts]
      · intro f hf
        rcases List.mem_append.mp hf with hf | hf
        · obtain ⟨c, _, hc⟩ := List.mem_map.mp hf
          exact Or.inl ⟨c, hc.symm⟩
        · exact Or.inr (List.mem_singleton.mp hf)

/-- With the target present as a numeric column,
`feature_target_correlation` writes its bar chart; no flag is read. -/
theorem feature_target_correlation_eq {cfg : Config} {s : PState} {tcol : Col}
    (hcol : getCol s.df cfg.target_column = some tcol)
    (hnum : tcol.dtype = DType.numeric) :
    feature_target_correlation cfg s =
      .ok (addArtifacts ["target_correlation.png"] s) := by
  unfold feature_target_correlation
  rw [hcol]
  simp [hnum]

/-- With the target present, the categorical step writes one count plot
per categorical column and the chi-square results csv. -/
theorem categorical_statistical_tests_eq {cfg : Config} {s : PState} {tcol : Col}
    (hcol : getCol s.df cfg.target_column = some tcol) :
    categorical_statistical_tests cfg s =
      .ok (addArtifacts ((s.cat_cols.map (fun c => c ++ "_categorical.png")) ++
            ["chi2_results.csv"]) s) := by
  unfold categorical_statistical_tests
  cases hcc : s.cat_cols with
  | nil => simp [hcc]
  | cons c t => rw [hcol]

/-- A successful external report run writes the html artifact. -/
theorem generate_sweetviz_ok (u : Unit) (s : PState) :
    generate_sweetviz (.ok u) s = addArtifacts ["sweetviz_report.html"] s := rfl

/-- A failing external report run is caught: the error is logged and the
step still completes. -/
theorem generate_sweetviz_error (e : String) (s : PState) :
    generate_sweetviz (.error e) s = addLog .error (.sweetvizFailed e) s := rfl

/-- Decomposition of a whole run with a present numeric target column:
the run succeeds for every combination of flag values, its final
dataframe is the post-drop dataframe, and its artifacts and logs are the
ordered concatenations of the per-step contributions, with the
target-analysis contribution abstracted by `lg`/`ar` (exactly the
skip-warning and no artifact whenever the flag is set and the
unique-value count is not 2). -/
theorem run_decomp (cfg : Config) (loaded : DataFrame) (sv : Except String Unit)
    (tcol : Col)
    (hcol : getCol (dropIdsDf cfg loaded) cfg.target_column = some tcol)
    (hnum : tcol.dtype = DType.numeric) :
    ∃ lg ar,
      run cfg loaded sv = .ok
        { df := dropIdsDf cfg loaded,
          num_cols := (classify_columns (dropIdsDf cfg loaded)).1,
          cat_cols := (classify_columns (dropIdsDf cfg loaded)).2,
          artifacts :=
            ["missing_values.csv"] ++
            (if cfg.plots_distribution then
               (classify_columns (dropIdsDf cfg loaded)).1.map
                 (fun c => c ++ "_distribution.png") else []) ++
            ar ++
            (if cfg.plots_correlation then ["correlation.png"] else []) ++
            ["target_correlation.png"] ++
            ((classify_columns (dropIdsDf cfg loaded)).2.map
                (fun c => c ++ "_categorical.png") ++ ["chi2_results.csv"]) ++
            (if cfg.outlier_detection then ["outlier_counts.csv"] else []) ++
            (match sv with | .ok _ => ["sweetviz_report.html"] | .error _ => []),
          logs :=
            [(LogLevel.info, LogMsg.loadingDataset),
             (LogLevel.info, LogMsg.datasetShape),
             (LogLevel.info, LogMsg.idColumnsRemoved),
             (LogLevel.info, LogMsg.duplicateRows (dupCount (dropIdsDf cfg loaded)))] ++
            lg ++
            (match sv with
             | .ok _ => []
             | .error e => [(LogLevel.error, LogMsg.sweetvizFailed e)]) ++
            [(LogLevel.info, LogMsg.pipelineCompleted)] } ∧
      (∀ f ∈ ar, (∃ c, f = c ++ "_vs_target.png") ∨
         f = "ttest_effectsize_results.csv") ∧
      (cfg.plots_target_analysis = true → (pdUniq tcol.values).length ≠ 2 →
         lg = [(LogLevel.warning, LogMsg.cohensDRequiresBinaryTarget)] ∧ ar = []) := by
  have h6 : distribution_plots cfg (classify_columns_step (duplicate_analysis
      (missing_value_analysis (drop_id_columns cfg (load_data loaded initState))))) =
      { df := dropIdsDf cfg loaded,
        num_cols := (classify_columns (dropIdsDf cfg loaded)).1,
        cat_cols := (classify_columns (dropIdsDf cfg loaded)).2,
        artifacts :=
          ["missing_values.csv"] ++
          (if cfg.plots_distribution then
             (classify_columns (dropIdsDf cfg loaded)).1.map
               (fun c => c ++ "_distribution.png") else []),
        logs :=
          [(LogLevel.info, LogMsg.loadingDataset),
           (LogLevel.info, LogMsg.datasetShape),
           (LogLevel.info, LogMsg.idColumnsRemoved),
           (LogLevel.info, LogMsg.duplicateRows (dupCount (dropIdsDf cfg loaded)))] } := by
    simp only [load_data, drop_id_columns, missing_value_analysis, duplicate_analysis,
      classify_columns_step, distribution_plots_eq, addLog, addArtifacts, initState]
    simp
  obtain ⟨lg, ar, hta, har, hskip⟩ :=
    @target_analysis_ok cfg
      { df := dropIdsDf cfg loaded,
        num_cols := (classify_columns (dropIdsDf cfg loaded)).1,
        cat_cols := (classify_columns (dropIdsDf cfg loaded)).2,
        artifacts :=
          ["missing_values.csv"] ++
          (if cfg.plots_distribution then
             (classify_columns (dropIdsDf cfg loaded)).1.map
               (fun c => c ++ "_distribution.png") else []),
        logs :=
          [(LogLevel.info, LogMsg.loadingDataset),
           (LogLevel.info, LogMsg.datasetShape),
           (LogLevel.info, LogMsg.idColumnsRemoved),
           (LogLevel.info, LogMsg.duplicateRows
              (dupCount (dropIdsDf cfg loaded)))] } tcol hcol
  refine ⟨lg, ar, ?_, har, hskip⟩
  unfold run
  rw [h6, hta]
  simp only [estep]
  rw [correlation_analysis_eq]
  rw [feature_target_correlation_eq hcol hnum]
  simp only [estep]
  rw [categorical_statistical_tests_eq hcol]
  simp only [estep]
  rw [outlier_analysis_eq]
  cases sv with
  | ok u =>
    rw [generate_sweetviz_ok]
    simp [addArtifacts, addLog]
  | error e =>
    rw [generate_sweetviz_error]
    simp [addArtifacts, addLog]

/-- Two-sided non-membership assembly for appended lists. -/
theorem not_mem_append_of {α : Type} {x : α} {l₁ l₂ : List α}
    (h1 : x ∉ l₁) (h2 : x ∉ l₂) : x ∉ l₁ ++ l₂ :=
  fun h => (List.mem_append.mp h).elim h1 h2

/-! ## Claim theorem: C4 -/

/-- C4: with the target-analysis flag set and a (numeric, present) target
column whose pandas-unique value count is not 2, the t-test/effect-size
step is skipped: the warning is logged, no
`ttest_effectsize_results.csv` is ever written, the run is not aborted,
and the pipeline completes through the remaining steps including
`sweetviz_report.html`. -/
theorem run_skips_nonbinary_target (cfg : Config) (loaded : DataFrame) (tcol : Col)
    (hflag : cfg.plots_target_analysis = true)
    (hcol : getCol (dropIdsDf cfg loaded) cfg.target_column = some tcol)
    (hnum : tcol.dtype = DType.numeric)
    (hlen : (pdUniq tcol.values).length ≠ 2) :
    ∃ s, run cfg loaded (.ok ()) = .ok s ∧
      (LogLevel.warning, LogMsg.cohensDRequiresBinaryTarget) ∈ s.logs ∧
      "ttest_effectsize_results.csv" ∉ s.artifacts ∧
      "sweetviz_report.html" ∈ s.artifacts := by
  obtain ⟨lg, ar, hrun, har, hskip⟩ := run_decomp cfg loaded (.ok ()) tcol hcol hnum
  obtain ⟨hlg, har0⟩ := hskip hflag hlen
  subst hlg
  subst har0
  refine ⟨_, hrun, by simp, ?_, by simp⟩
  exact not_mem_append_of
    (not_mem_append_of
      (not_mem_append_of
        (not_mem_append_of
          (not_mem_append_of
            (not_mem_append_of
              (not_mem_append_of (by decide)
                (not_mem_ite_nil (ttest_not_mem_map_png _ (by decide) _)))
              (List.not_mem_nil _))
            (not_mem_ite_nil (by decide)))
          (by decide))
        (not_mem_append_of (ttest_not_mem_map_png _ (by decide) _) (by decide)))
      (not_mem_ite_nil (by decide)))
    (by decide)

/-- Witness for C4 at the concrete configuration `cfgW` (all flags on)
and dataframe `dfW4`, whose target takes three distinct values. -/
theorem run_skips_nonbinary_target_witness :
    ∃ s, run cfgW dfW4 (.ok ()) = .ok s ∧
      (LogLevel.warning, LogMsg.cohensDRequiresBinaryTarget) ∈ s.logs ∧
      "ttest_effectsize_results.csv" ∉ s.artifacts ∧
      "sweetviz_report.html" ∈ s.artifacts :=
  run_skips_nonbinary_target cfgW dfW4
    ⟨"t", .numeric, [.num 0, .num 1, .num 2]⟩ rfl rfl rfl (by decide)

/-! ## Claim theorem: C5 -/

/-- C5: the feature-vs-target correlation step is not gated by any
configuration flag: for every configuration (every combination of the
four flag values) a run over a dataframe whose target column is present
and numeric succeeds and writes `target_correlation.png`; at the step
level, `feature_target_correlation` writes its bar chart without reading
any flag. -/
theorem feature_target_corr_ungated (cfg : Config) (loaded : DataFrame)
    (sv : Except String Unit) (tcol : Col)
    (hcol : getCol (dropIdsDf cfg loaded) cfg.target_column = some tcol)
    (hnum : tcol.dtype = DType.numeric) :
    (∀ s : PState, getCol s.df cfg.target_column = some tcol →
        feature_target_correlation cfg s =
          .ok (addArtifacts ["target_correlation.png"] s)) ∧
    ∃ s, run cfg loaded sv = .ok s ∧ "target_correlation.png" ∈ s.artifacts := by
  refine ⟨fun s hs => feature_target_correlation_eq hs hnum, ?_⟩
  obtain ⟨lg, ar, hrun, -, -⟩ := run_decomp cfg loaded sv tcol hcol hnum
  exact ⟨_, hrun, by simp⟩

/-- Witness for C5 at `cfgW` and `dfW4`. -/
theorem feature_target_corr_ungated_witness :
    (∀ s : PState, getCol s.df cfgW.target_column =
          some ⟨"t", .numeric, [.num 0, .num 1, .num 2]⟩ →
        feature_target_correlation cfgW s =
          .ok (addArtifacts ["target_correlation.png"] s)) ∧
    ∃ s, run cfgW dfW4 (.ok ()) = .ok s ∧ "target_correlation.png" ∈ s.artifacts :=
  feature_target_corr_ungated cfgW dfW4 (.ok ())
    ⟨"t", .numeric, [.num 0, .num 1, .num 2]⟩ rfl rfl

/-! ## Claim theorem: C8 -/

/-- C8: a failure of the external auto-profiling generator is caught and
logged as an error and never aborts the run: at the step level every
failing outcome only appends the error log line, and at the run level the
pipeline reaches its completion log line whether that last step succeeds
or fails. -/
theorem sweetviz_failure_contained (cfg : Config) (loaded : DataFrame) (tcol : Col)
    (hcol : getCol (dropIdsDf cfg loaded) cfg.target_column = some tcol)
    (hnum : tcol.dtype = DType.numeric) :
    (∀ (e : String) (s : PState),
        generate_sweetviz (.error e) s = addLog .error (.sweetvizFailed e) s) ∧
    (∀ sv : Except String Unit, ∃ s, run cfg loaded sv = .ok s ∧
        (LogLevel.info, LogMsg.pipelineCompleted) ∈ s.logs ∧
        (∀ e, sv = .error e →
           (LogLevel.error, LogMsg.sweetvizFailed e) ∈ s.logs)) := by
  refine ⟨fun e s => rfl, fun sv => ?_⟩
  obtain ⟨lg, ar, hrun, -, -⟩ := run_decomp cfg loaded sv tcol hcol hnum
  refine ⟨_, hrun, by simp, ?_⟩
  intro e he
  subst he
  simp

/-- Witness for C8 at `cfgW` and `dfW4`. -/
theorem sweetviz_failure_contained_witness :
    (∀ (e : String) (s : PState),
        generate_sweetviz (.error e) s = addLog .error (.sweetvizFailed e) s) ∧
    (∀ sv : Except String Unit, ∃ s, run cfgW dfW4 sv = .ok s ∧
        (LogLevel.info, LogMsg.pipelineCompleted) ∈ s.logs ∧
        (∀ e, sv = .error e →
           (LogLevel.error, LogMsg.sweetvizFailed e) ∈ s.logs)) :=
  sweetviz_failure_contained cfgW dfW4
    ⟨"t", .numeric, [.num 0, .num 1, .num 2]⟩ rfl rfl

/-! ## Claim theorem: C10 -/

/-- C10: pandas `unique()` counts a missing cell as a value of its own:
a target column with two distinct numbers plus at least one missing cell
has unique-value count 3, so the target-analysis step (flag set, column
present) is skipped with the warning and produces nothing. -/
theorem nan_counts_as_target_value (cfg : Config) (s : PState) (tcol : Col)
    (a b : ℚ)
    (hflag : cfg.plots_target_analysis = true)
    (hcol : getCol s.df cfg.target_column = some tcol)
    (hab : a ≠ b)
    (ha : Val.num a ∈ tcol.values) (hb : Val.num b ∈ tcol.values)
    (hm : Val.missing ∈ tcol.values)
    (hsub : ∀ v ∈ tcol.values, v = Val.num a ∨ v = Val.num b ∨ v = Val.missing) :
    (pdUniq tcol.values).length = 3 ∧
    target_analysis cfg s = .ok (addLog .warning .cohensDRequiresBinaryTarget s) := by
  have h3 := pdUniq_length_three hab ha hb hm hsub
  exact ⟨h3, target_analysis_skip hflag hcol (by omega)⟩

/-- Witness for C10 at the state `sW10`, whose target column holds the
cells `0`, missing, `1`, `0`. -/
theorem nan_counts_as_target_value_witness :
    (pdUniq [Val.num 0, Val.missing, Val.num 1, Val.num 0]).length = 3 ∧
    target_analysis cfgW sW10 =
      .ok (addLog .warning .cohensDRequiresBinaryTarget sW10) :=
  nan_counts_as_target_value cfgW sW10
    ⟨"t", .numeric, [.num 0, .missing, .num 1, .num 0]⟩ 0 1
    rfl rfl (by decide) (by decide) (by decide) (by decide) (by decide)

/-! ## Helper lemmas: dataframe preservation (frame effect) -/

/-- The distribution step never touches the dataframe. -/
theorem distribution_plots_df (cfg : Config) (s : PState) :
    (distribution_plots cfg s).df = s.df := by
  unfold distribution_plots
  split <;> rfl

/-- The correlation heatmap step never touches the dataframe. -/
theorem correlation_analysis_df (cfg : Config) (s : PState) :
    (correlation_analysis cfg s).df = s.df := by
  unfold correlation_analysis
  split <;> rfl

/-- The outlier step never touches the dataframe. -/
theorem outlier_analysis_df (cfg : Config) (s : PState) :
    (outlier_analysis cfg s).df = s.df := by
  unfold outlier_analysis
  split <;> rfl

/-- The external-report step never touches the dataframe. -/
theorem generate_sweetviz_df (sv : Except String Unit) (s : PState) :
    (generate_sweetviz sv s).df = s.df := by
  cases sv <;> rfl

/-- A successful target-analysis step never touches the dataframe. -/
theorem target_analysis_df {cfg : Config} {s t : PState}
    (h : target_analysis cfg s = .ok t) : t.df = s.df := by
  unfold target_analysis at h
  split at h
  · split at h
    · simp at h
    · split at h
      · injection h with h2
        subst h2
        rfl
      · injection h with h2
        subst h2
        rfl
  · injection h with h2
    subst h2
    rfl

/-- A successful feature-target-correlation step never touches the
dataframe. -/
theorem feature_target_correlation_df {cfg : Config} {s t : PState}
    (h : feature_target_correlation cfg s = .ok t) : t.df = s.df := by
  unfold feature_target_correlation at h
  split at h
  · simp at h
  · split at h
    · injection h with h2
      subst h2
      rfl
    · simp at h

/-- A successful categorical-tests step never touches the dataframe. -/
theorem categorical_statistical_tests_df {cfg : Config} {s t : PState}
    (h : categorical_statistical_tests cfg s = .ok t) : t.df = s.df := by
  unfold categorical_statistical_tests at h
  split at h
  · injection h with h2
    subst h2
    rfl
  · split at h
    · simp at h
    · injection h with h2
      subst h2
      rfl

/-- A successful run leaves the dataframe exactly as the drop step made
it. -/
theorem run_df (cfg : Config) (loaded : DataFrame) (sv : Except String Unit)
    (s : PState) (h : run cfg loaded sv = .ok s) :
    s.df = dropIdsDf cfg loaded := by
  unfold run estep at h
  split at h
  · simp at h
  · rename_i s7 hta
    beta_reduce at h
    split at h
    · simp at h
    · rename_i s9 hft
      split at h
      · simp at h
      · rename_i s10 hct
        injection h with h2
        subst h2
        show (generate_sweetviz sv (outlier_analysis cfg s10)).df = _
        rw [generate_sweetviz_df, outlier_analysis_df,
          categorical_statistical_tests_df hct,
          feature_target_correlation_df hft, correlation_analysis_df,
          target_analysis_df hta, distribution_plots_df]
        rfl

/-! ## Claim theorem: C9 -/

/-- C9: the dataframe is mutated only by the drop-identifier-columns
step: every later step — missing values, duplicates, classification, all
plotting and test steps, outlier counting, the external report — returns
a state with the dataframe unchanged, and a whole successful run ends
with exactly the post-drop dataframe. -/
theorem df_mutated_only_by_drop :
    (∀ s, (missing_value_analysis s).df = s.df) ∧
    (∀ s, (duplicate_analysis s).df = s.df) ∧
    (∀ s, (classify_columns_step s).df = s.df) ∧
    (∀ cfg s, (distribution_plots cfg s).df = s.df) ∧
    (∀ cfg s t, target_analysis cfg s = .ok t → t.df = s.df) ∧
    (∀ cfg s, (correlation_analysis cfg s).df = s.df) ∧
    (∀ cfg s t, feature_target_correlation cfg s = .ok t → t.df = s.df) ∧
    (∀ cfg s t, categorical_statistical_tests cfg s = .ok t → t.df = s.df) ∧
    (∀ cfg s, (outlier_analysis cfg s).df = s.df) ∧
    (∀ sv s, (generate_sweetviz sv s).df = s.df) ∧
    (∀ cfg loaded sv s, run cfg loaded sv = .ok s →
        s.df = dropIdsDf cfg loaded) :=
  ⟨fun _ => rfl, fun _ => rfl, fun _ => rfl, distribution_plots_df,
   fun _ _ _ h => target_analysis_df h, correlation_analysis_df,
   fun _ _ _ h => feature_target_correlation_df h,
   fun _ _ _ h => categorical_statistical_tests_df h,
   outlier_analysis_df, generate_sweetviz_df,
   fun cfg loaded sv s h => run_df cfg loaded sv s h⟩

/-- Witness for C9: the target-analysis conjunct applied at the concrete
state `sW`, where the step reduces to the logged warning. -/
theorem df_mutated_only_by_drop_witness :
    (addLog .warning .cohensDRequiresBinaryTarget sW).df = sW.df :=
  df_mutated_only_by_drop.2.2.2.2.1 cfgW sW
    (addLog .warning .cohensDRequiresBinaryTarget sW) rfl
